import Mathlib

/-!
Verification of the 4warder_bot moderated message-relay against its design
specification.  The definitions below are a shallow embedding of
`src/main.rs`: the two event handlers `on_room_message` and `on_room_react`,
the configuration validation `Config.try_from`, and the error taxonomy
`FourwarderError`.  Network effects are modelled explicitly: a `Client`
records which rooms the bot has joined, what a fetch of an event by id
returns, and whether a send succeeds; each handler invocation returns its
`Result` value together with the list of messages it sent (channel/content
pairs), in order.
-/

namespace Fourwarder

/-- Opaque, comparable channel identifier (ruma `RoomId`), validated at
configuration time. -/
abbrev RoomId := String

/-- Opaque event identifier (ruma `EventId`). -/
abbrev EventId := String

/-- Payload of a `serde_json::Error` (only its identity matters here). -/
abbrev SerdeError := String

/-- The `matrix_sdk::Error` kinds the handlers can produce: a
deserialization failure (`Error::SerdeJson`) or any other backend/transport
failure, collapsed into `Http`. -/
inductive MatrixError where
  | SerdeJson (e : SerdeError)
  | Http (msg : String)
  deriving Repr, DecidableEq

/-- `enum FourwarderError { Config, Matrix, Logic }` from `src/main.rs`. -/
inductive FourwarderError where
  | Config (msg : String)
  | Matrix (e : MatrixError)
  | Logic (msg : String)
  deriving Repr, DecidableEq

/-- `TextMessageEventContent`: only the `body` field is read by the code
(the destructuring patterns use `..` for the rest). -/
structure TextMessageEventContent where
  body : String
  deriving Repr, DecidableEq

/-- `MessageType`: the `Text` variant, with every other variant (`Image`,
`File`, `Notice`, ...) collapsed into `Other` carrying its kind tag. -/
inductive MessageType where
  | Text (content : TextMessageEventContent)
  | Other (kind : String)
  deriving Repr, DecidableEq

/-- True exactly on the `Text` variant. -/
def MessageType.isText : MessageType → Bool
  | .Text _ => true
  | _ => false

/-- `MessageEventContent`: the `msgtype` field is the only one the handlers
inspect. -/
structure MessageEventContent where
  msgtype : MessageType
  deriving Repr, DecidableEq

/-- `MessageEventContent::text_plain`: wraps a body as a plain-text message
content, byte for byte. -/
def MessageEventContent.text_plain (body : String) : MessageEventContent :=
  { msgtype := MessageType.Text { body := body } }

/-- The `relates_to` annotation of a reaction: the id of the event reacted
to and the reaction symbol. -/
structure Relation where
  event_id : EventId
  emoji : String
  deriving Repr, DecidableEq

/-- `ReactionEventContent` from ruma. -/
structure ReactionEventContent where
  relates_to : Relation
  deriving Repr, DecidableEq

/-- `SyncMessageEvent<C>`: the fields the handlers touch. -/
structure SyncMessageEvent (C : Type) where
  content : C
  event_id : EventId
  sender : String
  deriving Repr, DecidableEq

/-- `matrix_sdk::room::Room`: joined, invited or left, each holding the
room id. -/
inductive Room where
  | Joined (room_id : RoomId)
  | Invited (room_id : RoomId)
  | Left (room_id : RoomId)
  deriving Repr, DecidableEq

/-- `Room::room_id()`, available on every variant. -/
def Room.room_id : Room → RoomId
  | .Joined r => r
  | .Invited r => r
  | .Left r => r

/-- Whether the `Room` handle is in the `Joined` state. -/
def Room.isJoined : Room → Bool
  | .Joined _ => true
  | _ => false

/-- A fetched room-message event (`AnyMessageEvent::RoomMessage` payload):
the handler reads only its `content`. -/
structure MessageEvent where
  content : MessageEventContent
  deriving Repr, DecidableEq

/-- `AnyMessageEvent`: `RoomMessage` plus every other message-event kind
(`Reaction`, `Sticker`, `CallAnswer`, ...) collapsed into `OtherMessage`. -/
inductive AnyMessageEvent where
  | RoomMessage (msg : MessageEvent)
  | OtherMessage (kind : String)
  deriving Repr, DecidableEq

/-- `AnyRoomEvent`: message events, state events and their redacted
counterparts. -/
inductive AnyRoomEvent where
  | Message (ev : AnyMessageEvent)
  | State (kind : String)
  | RedactedMessage (kind : String)
  | RedactedState (kind : String)
  deriving Repr, DecidableEq

/-- True exactly when the event is `Message (RoomMessage _)` — the one shape
the `if let` destructuring in `on_room_react` matches. -/
def AnyRoomEvent.isRoomMessage : AnyRoomEvent → Bool
  | .Message (.RoomMessage _) => true
  | _ => false

/-- A raw (not yet deserialized) event as returned by the
`get_room_event` endpoint; `deserialize` is its `Raw::deserialize`
outcome. -/
structure RawEvent where
  deserialize : Except SerdeError AnyRoomEvent

/-- A message sent by a handler: destination channel and content. -/
abbrev Send := RoomId × MessageEventContent

/-- The slice of `matrix_sdk::Client` the handlers use: which rooms the
bot currently holds joined membership of, what fetching an event by id from
a room returns, and whether a given send succeeds. -/
structure Client where
  joinedRooms : List RoomId
  fetch : RoomId → EventId → Except MatrixError RawEvent
  send : RoomId → MessageEventContent → Except MatrixError Unit

/-- `Client::get_joined_room`: `Some` exactly when the bot holds joined
membership of the room. -/
def Client.get_joined_room (client : Client) (room_id : RoomId) : Option RoomId :=
  if client.joinedRooms.contains room_id then some room_id else none

/-- `Client::room_send`: on success the message is appended to the send
log; on failure the error is returned and nothing is sent. -/
def Client.room_send (client : Client) (room_id : RoomId)
    (content : MessageEventContent) : Except MatrixError Unit × List Send :=
  match client.send room_id content with
  | Except.ok _ => (Except.ok (), [(room_id, content)])
  | Except.error e => (Except.error e, [])

/-- `struct RawConfig` (`src/main.rs` lines 23-31): the six raw string
fields read from `4warder.toml`. -/
structure RawConfig where
  homeserver : String
  username : String
  password : String
  input_room_id : String
  mod_room_id : String
  output_room_id : String
  deriving Repr, DecidableEq

/-- `struct Config` (`src/main.rs` lines 33-40): the validated
configuration. -/
structure Config where
  homeserver : String
  username : String
  password : String
  input_room_id : RoomId
  mod_room_id : RoomId
  output_room_id : RoomId
  deriving Repr, DecidableEq

/-- Error text for an invalid `input_room_id` (`src/main.rs` line 50). -/
def input_room_id_invalid : String := "`input_room_id` is not a valid `RoomId`"

/-- Error text for an invalid `mod_room_id` (`src/main.rs` line 52). -/
def mod_room_id_invalid : String := "`mod_room_id` is not a valid `RoomId`"

/-- Error text for an invalid `output_room_id` (`src/main.rs` line 54). -/
def output_room_id_invalid : String := "`output_room_id` is not a valid `RoomId`"

/-- `impl TryFrom<RawConfig> for Config` (`src/main.rs` lines 42-57).
`RoomId::try_from` is implemented by the external `ruma` crate (the Channel
Identity Resolver collaborator), so resolution of a raw channel reference
to a `RoomId` is abstracted as the parameter `roomIdTryFrom`; the three
references are validated in source order and the first failure aborts with
a `Config` error naming the offending field, exactly as the `?` operators
do. -/
def Config.try_from (roomIdTryFrom : String → Option RoomId)
    (config : RawConfig) : Except FourwarderError Config :=
  match roomIdTryFrom config.input_room_id with
  | none => Except.error (FourwarderError.Config input_room_id_invalid)
  | some input =>
    match roomIdTryFrom config.mod_room_id with
    | none => Except.error (FourwarderError.Config mod_room_id_invalid)
    | some m =>
      match roomIdTryFrom config.output_room_id with
      | none => Except.error (FourwarderError.Config output_room_id_invalid)
      | some out =>
        Except.ok
          { homeserver := config.homeserver
            username := config.username
            password := config.password
            input_room_id := input
            mod_room_id := m
            output_room_id := out }

/-- The hardcoded approval reaction symbol (`src/main.rs` line 145). -/
def approvalEmoji : String := "✅"

/-- Logic-error text when the Moderation room is not joined
(`src/main.rs` lines 149-152). -/
def not_joined_error : String :=
  "We could not get a joined room that we definetly have joined before"

/-- Logic-error text when the reacted-to room message is not plain text
(`src/main.rs` lines 182-184). -/
def not_text_error : String :=
  "We assumed that the message being reacted to was a text message"

/-- `on_room_message` (`src/main.rs` lines 106-135): if the room handle is
`Joined`, the event is a plain-text message, and the room is the Input
channel, forward the body verbatim to the Moderation channel; otherwise do
nothing and return `Ok(())`. -/
def on_room_message (cfg : Config) (client : Client)
    (event : SyncMessageEvent MessageEventContent) (room : Room) :
    Except MatrixError Unit × List Send :=
  match room with
  | Room.Joined room_id =>
    match event.content.msgtype with
    | MessageType.Text tmc =>
      if room_id = cfg.input_room_id then
        client.room_send cfg.mod_room_id (MessageEventContent.text_plain tmc.body)
      else
        (Except.ok (), [])
    | MessageType.Other _ => (Except.ok (), [])
  | _ => (Except.ok (), [])

/-- `on_room_react` (`src/main.rs` lines 137-190): on an approval reaction
("✅") in the Moderation channel, require joined membership of the
Moderation channel (else `Logic` error), fetch and deserialize the
reacted-to event (failures become `Matrix` errors), and if it is a
plain-text room message forward its body verbatim to the Output channel; a
room message that is not plain text is a `Logic` error, while a fetched
event that is not a room message falls through the `if let` to `Ok(())`. -/
def on_room_react (cfg : Config) (client : Client)
    (event : SyncMessageEvent ReactionEventContent) (room : Room) :
    Except FourwarderError Unit × List Send :=
  let reacted_to := event.content.relates_to.event_id
  let emoji := event.content.relates_to.emoji
  if emoji = approvalEmoji ∧ room.room_id = cfg.mod_room_id then
    match client.get_joined_room cfg.mod_room_id with
    | none => (Except.error (FourwarderError.Logic not_joined_error), [])
    | some _ =>
      match client.fetch cfg.mod_room_id reacted_to with
      | Except.error e => (Except.error (FourwarderError.Matrix e), [])
      | Except.ok raw =>
        match raw.deserialize with
        | Except.error e =>
          (Except.error (FourwarderError.Matrix (MatrixError.SerdeJson e)), [])
        | Except.ok (AnyRoomEvent.Message (AnyMessageEvent.RoomMessage msg)) =>
          match msg.content.msgtype with
          | MessageType.Text tmc =>
            match client.room_send cfg.output_room_id
                (MessageEventContent.text_plain tmc.body) with
            | (Except.ok _, sends) => (Except.ok (), sends)
            | (Except.error e, sends) =>
              (Except.error (FourwarderError.Matrix e), sends)
          | _ => (Except.error (FourwarderError.Logic not_text_error), [])
        | Except.ok _ => (Except.ok (), [])
  else
    (Except.ok (), [])

/-! Concrete fixtures used by witnesses and counterexamples. -/

/-- A concrete validated configuration. -/
def wCfg : Config :=
  { homeserver := "https://example.org"
    username := "4warder"
    password := "hunter2"
    input_room_id := "!input:example.org"
    mod_room_id := "!mod:example.org"
    output_room_id := "!output:example.org" }

/-- A concrete raw configuration. -/
def wRawConfig : RawConfig :=
  { homeserver := "https://example.org"
    username := "4warder"
    password := "hunter2"
    input_room_id := "not a room id"
    mod_room_id := "!mod:example.org"
    output_room_id := "!output:example.org" }

/-- A resolver that rejects every channel reference. -/
def wRejectAll : String → Option RoomId := fun _ => none

/-- A concrete plain-text room message with body "hello world". -/
def wMsg : MessageEvent :=
  { content := { msgtype := MessageType.Text { body := "hello world" } } }

/-- A raw event deserializing to the plain-text room message `wMsg`. -/
def wTextRaw : RawEvent :=
  { deserialize := Except.ok (AnyRoomEvent.Message (AnyMessageEvent.RoomMessage wMsg)) }

/-- A raw event deserializing to an image room message. -/
def wImageRaw : RawEvent :=
  { deserialize := Except.ok (AnyRoomEvent.Message (AnyMessageEvent.RoomMessage
      { content := { msgtype := MessageType.Other "m.image" } })) }

/-- A raw event deserializing to a state event (not a message event). -/
def wStateRaw : RawEvent :=
  { deserialize := Except.ok (AnyRoomEvent.State "m.room.topic") }

/-- A raw event that fails to deserialize. -/
def wBadRaw : RawEvent :=
  { deserialize := Except.error "invalid json" }

/-- A client joined to the Moderation room whose fetch yields the
plain-text message and whose sends succeed. -/
def wClient : Client :=
  { joinedRooms := ["!mod:example.org"]
    fetch := fun _ _ => Except.ok wTextRaw
    send := fun _ _ => Except.ok () }

/-- Like `wClient` but not joined to any room. -/
def wClientNotJoined : Client :=
  { joinedRooms := []
    fetch := fun _ _ => Except.ok wTextRaw
    send := fun _ _ => Except.ok () }

/-- Like `wClient` but every fetch fails with an HTTP error. -/
def wClientFetchFail : Client :=
  { joinedRooms := ["!mod:example.org"]
    fetch := fun _ _ => Except.error (MatrixError.Http "500 internal server error")
    send := fun _ _ => Except.ok () }

/-- Like `wClient` but the fetched event is a non-text room message. -/
def wClientImage : Client :=
  { joinedRooms := ["!mod:example.org"]
    fetch := fun _ _ => Except.ok wImageRaw
    send := fun _ _ => Except.ok () }

/-- Like `wClient` but the fetched event is a state event. -/
def wClientState : Client :=
  { joinedRooms := ["!mod:example.org"]
    fetch := fun _ _ => Except.ok wStateRaw
    send := fun _ _ => Except.ok () }

/-- An approval reaction relating to the moderation-channel event `$e1`. -/
def wReact : SyncMessageEvent ReactionEventContent :=
  { content := { relates_to := { event_id := "$e1:example.org", emoji := "✅" } }
    event_id := "$r1:example.org"
    sender := "@moderator:example.org" }

/-- A second approval reaction, by a different reaction event, relating to
the same moderation-channel event `$e1`. -/
def wReact2 : SyncMessageEvent ReactionEventContent :=
  { content := { relates_to := { event_id := "$e1:example.org", emoji := "✅" } }
    event_id := "$r2:example.org"
    sender := "@moderator2:example.org" }

/-- A reaction using the emoji-presentation variant of the check mark:
U+2705 followed by the variation selector U+FE0F. -/
def wVariantReact : SyncMessageEvent ReactionEventContent :=
  { content := { relates_to := { event_id := "$e1:example.org", emoji := "\u2705\uFE0F" } }
    event_id := "$r3:example.org"
    sender := "@moderator:example.org" }

/-- A reaction with a thumbs-up symbol, not the approval signal. -/
def wThumbsReact : SyncMessageEvent ReactionEventContent :=
  { content := { relates_to := { event_id := "$e1:example.org", emoji := "👍" } }
    event_id := "$r4:example.org"
    sender := "@moderator:example.org" }

/-- The Moderation room, joined. -/
def wRoomMod : Room := Room.Joined "!mod:example.org"

/-- A plain-text message event with body "hello world". -/
def wTextEvent : SyncMessageEvent MessageEventContent :=
  { content := { msgtype := MessageType.Text { body := "hello world" } }
    event_id := "$m1:example.org"
    sender := "@user:example.org" }

/-- An image message event. -/
def wImageEvent : SyncMessageEvent MessageEventContent :=
  { content := { msgtype := MessageType.Other "m.image" }
    event_id := "$m2:example.org"
    sender := "@user:example.org" }

/-! Helper lemmas shared by several claim theorems. -/

/-- If the reaction symbol is not the approval emoji or the room is not the
Moderation channel, `on_room_react` returns `Ok(())` and sends nothing. -/
theorem on_room_react_ignored (cfg : Config) (client : Client)
    (event : SyncMessageEvent ReactionEventContent) (room : Room)
    (h : ¬(event.content.relates_to.emoji = approvalEmoji ∧
           room.room_id = cfg.mod_room_id)) :
    on_room_react cfg client event room = (Except.ok (), []) := by
  simp only [on_room_react, if_neg h]

/-- The success path of `on_room_react`: with an approval reaction in the
joined Moderation channel whose reacted-to event fetches and deserializes
to a plain-text room message with body `B`, and a succeeding send, the
handler returns `Ok(())` having sent exactly one plain-text message with
body `B` to the Output channel. -/
theorem on_room_react_success (cfg : Config) (client : Client)
    (event : SyncMessageEvent ReactionEventContent) (room : Room)
    (raw : RawEvent) (msg : MessageEvent) (B : String)
    (hemoji : event.content.relates_to.emoji = approvalEmoji)
    (hroom : room.room_id = cfg.mod_room_id)
    (hjoined : client.joinedRooms.contains cfg.mod_room_id = true)
    (hfetch : client.fetch cfg.mod_room_id event.content.relates_to.event_id
      = Except.ok raw)
    (hde : raw.deserialize
      = Except.ok (AnyRoomEvent.Message (AnyMessageEvent.RoomMessage msg)))
    (hbody : msg.content.msgtype = MessageType.Text ⟨B⟩)
    (hsend : client.send cfg.output_room_id (MessageEventContent.text_plain B)
      = Except.ok ()) :
    on_room_react cfg client event room =
      (Except.ok (), [(cfg.output_room_id, MessageEventContent.text_plain B)]) := by
  simp only [on_room_react, hemoji, hroom, and_self, if_true,
    Client.get_joined_room, hjoined, if_pos, hfetch, hde, hbody,
    Client.room_send]
  simp [MessageEventContent.text_plain] at hsend ⊢
  simp [hsend]

/-! Claim theorems. -/

/-- Claim C1: for every approval reaction ("✅", in the Moderation
channel) whose related-to event, fetched from the Moderation channel, is a
room message with plain-text body `B`, the Approval Handler sends exactly
one new plain-text message to the Output channel whose text is
byte-identical to `B`, and returns success. -/
theorem approval_sends_exact_body (cfg : Config) (client : Client)
    (event : SyncMessageEvent ReactionEventContent) (room : Room)
    (raw : RawEvent) (msg : MessageEvent) (B : String)
    (hemoji : event.content.relates_to.emoji = approvalEmoji)
    (hroom : room.room_id = cfg.mod_room_id)
    (hjoined : client.joinedRooms.contains cfg.mod_room_id = true)
    (hfetch : client.fetch cfg.mod_room_id event.content.relates_to.event_id
      = Except.ok raw)
    (hde : raw.deserialize
      = Except.ok (AnyRoomEvent.Message (AnyMessageEvent.RoomMessage msg)))
    (hbody : msg.content.msgtype = MessageType.Text ⟨B⟩)
    (hsend : client.send cfg.output_room_id (MessageEventContent.text_plain B)
      = Except.ok ()) :
    on_room_react cfg client event room =
      (Except.ok (), [(cfg.output_room_id, MessageEventContent.text_plain B)]) :=
  on_room_react_success cfg client event room raw msg B
    hemoji hroom hjoined hfetch hde hbody hsend

/-- Witness for C1 at a concrete configuration, client and reaction. -/
theorem approval_sends_exact_body_witness :
    on_room_react wCfg wClient wReact wRoomMod =
      (Except.ok (),
       [(wCfg.output_room_id, MessageEventContent.text_plain "hello world")]) :=
  approval_sends_exact_body wCfg wClient wReact wRoomMod wTextRaw wMsg
    "hello world" rfl rfl rfl rfl rfl rfl rfl

/-- Claim C2: for every plain-text message event with body `B` in the
joined Input channel, the Relay Handler sends exactly one new plain-text
message containing exactly `B` to the Moderation channel — and, whenever
the Moderation channel is distinct from the Output (resp. Input) channel,
nothing to the Output channel and no acknowledgement to the Input
channel — and returns success. -/
theorem relay_sends_body_to_moderation (cfg : Config) (client : Client)
    (event : SyncMessageEvent MessageEventContent) (B : String)
    (hbody : event.content.msgtype = MessageType.Text ⟨B⟩)
    (hsend : client.send cfg.mod_room_id (MessageEventContent.text_plain B)
      = Except.ok ()) :
    on_room_message cfg client event (Room.Joined cfg.input_room_id) =
      (Except.ok (), [(cfg.mod_room_id, MessageEventContent.text_plain B)]) ∧
    (cfg.output_room_id ≠ cfg.mod_room_id →
      ∀ s ∈ (on_room_message cfg client event (Room.Joined cfg.input_room_id)).2,
        s.1 ≠ cfg.output_room_id) ∧
    (cfg.input_room_id ≠ cfg.mod_room_id →
      ∀ s ∈ (on_room_message cfg client event (Room.Joined cfg.input_room_id)).2,
        s.1 ≠ cfg.input_room_id) := by
  have hmain : on_room_message cfg client event (Room.Joined cfg.input_room_id) =
      (Except.ok (), [(cfg.mod_room_id, MessageEventContent.text_plain B)]) := by
    simp only [on_room_message, hbody, if_pos rfl, Client.room_send]
    simp [MessageEventContent.text_plain] at hsend ⊢
    simp [hsend]
  refine ⟨hmain, ?_, ?_⟩
  · intro hne s hs
    rw [hmain] at hs
    simp at hs
    subst hs
    exact fun hc => hne hc.symm
  · intro hne s hs
    rw [hmain] at hs
    simp at hs
    subst hs
    exact fun hc => hne hc.symm

/-- Witness for C2 at a concrete configuration, client and message. -/
theorem relay_sends_body_to_moderation_witness :
    on_room_message wCfg wClient wTextEvent (Room.Joined wCfg.input_room_id) =
      (Except.ok (),
       [(wCfg.mod_room_id, MessageEventContent.text_plain "hello world")]) :=
  (relay_sends_body_to_moderation wCfg wClient wTextEvent "hello world"
    rfl rfl).1

/-- Counterexample to claim C3 as stated: on an approval reaction in the
joined Moderation channel whose fetched related-to event is a state event —
not a message event at all — the handler returns `Ok(())` and sends
nothing, instead of failing with a Logic error. -/
theorem approval_nonmessage_is_silently_ignored :
    on_room_react wCfg wClientState wReact wRoomMod = (Except.ok (), []) := by
  rfl

/-- Amended claim C3: when the fetched related-to event is a room message
whose content is not plain text, the handler fails with the Logic error
and sends nothing to any channel; but when the fetched event is not a room
message at all, the handler returns success and sends nothing (the `if let`
destructuring silently falls through). -/
theorem approval_fetched_event_cases (cfg : Config) (client : Client)
    (event : SyncMessageEvent ReactionEventContent) (room : Room)
    (raw : RawEvent)
    (hemoji : event.content.relates_to.emoji = approvalEmoji)
    (hroom : room.room_id = cfg.mod_room_id)
    (hjoined : client.joinedRooms.contains cfg.mod_room_id = true)
    (hfetch : client.fetch cfg.mod_room_id event.content.relates_to.event_id
      = Except.ok raw) :
    (∀ msg : MessageEvent,
      raw.deserialize
        = Except.ok (AnyRoomEvent.Message (AnyMessageEvent.RoomMessage msg)) →
      msg.content.msgtype.isText = false →
      on_room_react cfg client event room =
        (Except.error (FourwarderError.Logic not_text_error), [])) ∧
    (∀ ev : AnyRoomEvent, raw.deserialize = Except.ok ev →
      ev.isRoomMessage = false →
      on_room_react cfg client event room = (Except.ok (), [])) := by
  constructor
  · intro msg hde hnt
    cases ht : msg.content.msgtype with
    | Text t =>
      rw [ht] at hnt
      simp [MessageType.isText] at hnt
    | Other k =>
      simp only [on_room_react, hemoji, hroom, and_self, if_true,
        Client.get_joined_room, hjoined, if_pos, hfetch, hde, ht]
  · intro ev hde hnm
    cases ev with
    | Message m =>
      cases m with
      | RoomMessage msg => simp [AnyRoomEvent.isRoomMessage] at hnm
      | OtherMessage k =>
        simp only [on_room_react, hemoji, hroom, and_self, if_true,
          Client.get_joined_room, hjoined, if_pos, hfetch, hde]
    | State k =>
      simp only [on_room_react, hemoji, hroom, and_self, if_true,
        Client.get_joined_room, hjoined, if_pos, hfetch, hde]
    | RedactedMessage k =>
      simp only [on_room_react, hemoji, hroom, and_self, if_true,
        Client.get_joined_room, hjoined, if_pos, hfetch, hde]
    | RedactedState k =>
      simp only [on_room_react, hemoji, hroom, and_self, if_true,
        Client.get_joined_room, hjoined, if_pos, hfetch, hde]

/-- Witness for the amended C3: a non-text room message yields the Logic
error with no send, and a state event yields success with no send. -/
theorem approval_fetched_event_cases_witness :
    on_room_react wCfg wClientImage wReact wRoomMod =
      (Except.error (FourwarderError.Logic not_text_error), []) ∧
    on_room_react wCfg wClientState wReact wRoomMod = (Except.ok (), []) :=
  ⟨(approval_fetched_event_cases wCfg wClientImage wReact wRoomMod wImageRaw
      rfl rfl rfl rfl).1
      { content := { msgtype := MessageType.Other "m.image" } } rfl rfl,
   (approval_fetched_event_cases wCfg wClientState wReact wRoomMod wStateRaw
      rfl rfl rfl rfl).2 (AnyRoomEvent.State "m.room.topic") rfl rfl⟩

/-- Claim C4: the Approval Handler is not idempotent: two qualifying
approval reactions relating to the same moderation-channel text message
with body `B` — processed one after the other against the same backend
state, which the handler never updates with any deduplication marker —
produce two Output-channel messages with body `B`. -/
theorem approval_not_idempotent (cfg : Config) (client : Client)
    (e1 e2 : SyncMessageEvent ReactionEventContent) (room : Room)
    (raw : RawEvent) (msg : MessageEvent) (B : String)
    (hemoji1 : e1.content.relates_to.emoji = approvalEmoji)
    (hemoji2 : e2.content.relates_to.emoji = approvalEmoji)
    (hsame : e2.content.relates_to.event_id = e1.content.relates_to.event_id)
    (hroom : room.room_id = cfg.mod_room_id)
    (hjoined : client.joinedRooms.contains cfg.mod_room_id = true)
    (hfetch : client.fetch cfg.mod_room_id e1.content.relates_to.event_id
      = Except.ok raw)
    (hde : raw.deserialize
      = Except.ok (AnyRoomEvent.Message (AnyMessageEvent.RoomMessage msg)))
    (hbody : msg.content.msgtype = MessageType.Text ⟨B⟩)
    (hsend : client.send cfg.output_room_id (MessageEventContent.text_plain B)
      = Except.ok ()) :
    (on_room_react cfg client e1 room).2 ++ (on_room_react cfg client e2 room).2 =
      [(cfg.output_room_id, MessageEventContent.text_plain B),
       (cfg.output_room_id, MessageEventContent.text_plain B)] := by
  have hfetch2 : client.fetch cfg.mod_room_id e2.content.relates_to.event_id
      = Except.ok raw := by
    rw [hsame]
    exact hfetch
  have r1 := on_room_react_success cfg client e1 room raw msg B
    hemoji1 hroom hjoined hfetch hde hbody hsend
  have r2 := on_room_react_success cfg client e2 room raw msg B
    hemoji2 hroom hjoined hfetch2 hde hbody hsend
  rw [r1, r2]
  rfl

/-- Witness for C4: two distinct approval reactions on the same
moderation-channel message produce two Output messages. -/
theorem approval_not_idempotent_witness :
    (on_room_react wCfg wClient wReact wRoomMod).2 ++
      (on_room_react wCfg wClient wReact2 wRoomMod).2 =
      [(wCfg.output_room_id, MessageEventContent.text_plain "hello world"),
       (wCfg.output_room_id, MessageEventContent.text_plain "hello world")] :=
  approval_not_idempotent wCfg wClient wReact wReact2 wRoomMod wTextRaw wMsg
    "hello world" rfl rfl rfl rfl rfl rfl rfl rfl rfl

/-- Claim C5: events matching no recognized (kind, channel) pair — a text
message in a joined room other than the Input channel, a non-text message
event anywhere, a reaction whose symbol is not the approval signal, or a
reaction outside the Moderation channel — make the handlers return success
with no message sent to any channel and no error. -/
theorem unmatched_events_ignored (cfg : Config) (client : Client) :
    (∀ (event : SyncMessageEvent MessageEventContent) (rid : RoomId),
      rid ≠ cfg.input_room_id →
      on_room_message cfg client event (Room.Joined rid) = (Except.ok (), [])) ∧
    (∀ (event : SyncMessageEvent MessageEventContent) (room : Room),
      event.content.msgtype.isText = false →
      on_room_message cfg client event room = (Except.ok (), [])) ∧
    (∀ (event : SyncMessageEvent ReactionEventContent) (room : Room),
      event.content.relates_to.emoji ≠ approvalEmoji →
      on_room_react cfg client event room = (Except.ok (), [])) ∧
    (∀ (event : SyncMessageEvent ReactionEventContent) (room : Room),
      room.room_id ≠ cfg.mod_room_id →
      on_room_react cfg client event room = (Except.ok (), [])) := by
  refine ⟨?_, ?_, ?_, ?_⟩
  · intro event rid hne
    cases ht : event.content.msgtype with
    | Text t => simp only [on_room_message, ht, if_neg hne]
    | Other k => simp only [on_room_message, ht]
  · intro event room hnt
    cases room with
    | Joined rid =>
      cases ht : event.content.msgtype with
      | Text t =>
        rw [ht] at hnt
        simp [MessageType.isText] at hnt
      | Other k => simp only [on_room_message, ht]
    | Invited rid => simp only [on_room_message]
    | Left rid => simp only [on_room_message]
  · intro event room hne
    exact on_room_react_ignored cfg client event room (fun hc => hne hc.1)
  · intro event room hne
    exact on_room_react_ignored cfg client event room (fun hc => hne hc.2)

/-- Witness for C5: a text message in the Output room, an image message in
the Input room, a thumbs-up reaction in the Moderation room, and an
approval reaction in the Input room are all ignored. -/
theorem unmatched_events_ignored_witness :
    on_room_message wCfg wClient wTextEvent (Room.Joined wCfg.output_room_id) =
      (Except.ok (), []) ∧
    on_room_message wCfg wClient wImageEvent (Room.Joined wCfg.input_room_id) =
      (Except.ok (), []) ∧
    on_room_react wCfg wClient wThumbsReact wRoomMod = (Except.ok (), []) ∧
    on_room_react wCfg wClient wReact (Room.Joined wCfg.input_room_id) =
      (Except.ok (), []) :=
  ⟨(unmatched_events_ignored wCfg wClient).1 wTextEvent wCfg.output_room_id
      (by decide),
   (unmatched_events_ignored wCfg wClient).2.1 wImageEvent
      (Room.Joined wCfg.input_room_id) rfl,
   (unmatched_events_ignored wCfg wClient).2.2.1 wThumbsReact wRoomMod
      (by decide),
   (unmatched_events_ignored wCfg wClient).2.2.2 wReact
      (Room.Joined wCfg.input_room_id) (by decide)⟩

/-- Claim C6: on a qualifying approval reaction, if the bot does not hold
joined membership of the Moderation channel, the handler returns the Logic
error and sends nothing — and the result is the same for every possible
fetch behaviour, so the error occurs before any event is fetched. -/
theorem approval_requires_joined_mod_room (cfg : Config) (client : Client)
    (event : SyncMessageEvent ReactionEventContent) (room : Room)
    (hemoji : event.content.relates_to.emoji = approvalEmoji)
    (hroom : room.room_id = cfg.mod_room_id)
    (hnj : client.joinedRooms.contains cfg.mod_room_id = false) :
    on_room_react cfg client event room =
      (Except.error (FourwarderError.Logic not_joined_error), []) ∧
    (∀ f : RoomId → EventId → Except MatrixError RawEvent,
      on_room_react cfg { client with fetch := f } event room =
        (Except.error (FourwarderError.Logic not_joined_error), [])) := by
  constructor
  · simp only [on_room_react, hemoji, hroom, and_self, if_true,
      Client.get_joined_room, hnj]
    simp
  · intro f
    simp only [on_room_react, hemoji, hroom, and_self, if_true,
      Client.get_joined_room, hnj]
    simp

/-- Witness for C6 at a concrete client that joined no room. -/
theorem approval_requires_joined_mod_room_witness :
    on_room_react wCfg wClientNotJoined wReact wRoomMod =
      (Except.error (FourwarderError.Logic not_joined_error), []) :=
  (approval_requires_joined_mod_room wCfg wClientNotJoined wReact wRoomMod
    rfl rfl rfl).1

/-- Claim C7: on a qualifying approval reaction with joined Moderation
membership, a failing fetch of the reacted-to event yields that backend
error wrapped as a Matrix error, and a fetched event that fails to
deserialize yields the deserialization failure wrapped as a Matrix error;
in both cases nothing is sent to any channel. -/
theorem approval_fetch_or_deserialize_failure_matrix (cfg : Config)
    (client : Client) (event : SyncMessageEvent ReactionEventContent)
    (room : Room)
    (hemoji : event.content.relates_to.emoji = approvalEmoji)
    (hroom : room.room_id = cfg.mod_room_id)
    (hjoined : client.joinedRooms.contains cfg.mod_room_id = true) :
    (∀ e : MatrixError,
      client.fetch cfg.mod_room_id event.content.relates_to.event_id
        = Except.error e →
      on_room_react cfg client event room =
        (Except.error (FourwarderError.Matrix e), [])) ∧
    (∀ (raw : RawEvent) (se : SerdeError),
      client.fetch cfg.mod_room_id event.content.relates_to.event_id
        = Except.ok raw →
      raw.deserialize = Except.error se →
      on_room_react cfg client event room =
        (Except.error (FourwarderError.Matrix (MatrixError.SerdeJson se)), [])) := by
  constructor
  · intro e hf
    simp only [on_room_react, hemoji, hroom, and_self, if_true,
      Client.get_joined_room, hjoined, if_pos, hf]
  · intro raw se hf hd
    simp only [on_room_react, hemoji, hroom, and_self, if_true,
      Client.get_joined_room, hjoined, if_pos, hf, hd]

/-- Witness for C7 at a concrete client whose fetch fails. -/
theorem approval_fetch_or_deserialize_failure_matrix_witness :
    on_room_react wCfg wClientFetchFail wReact wRoomMod =
      (Except.error (FourwarderError.Matrix
        (MatrixError.Http "500 internal server error")), []) :=
  (approval_fetch_or_deserialize_failure_matrix wCfg wClientFetchFail wReact
    wRoomMod rfl rfl rfl).1 (MatrixError.Http "500 internal server error") rfl

/-- Claim C8: the approval signal is the hardcoded one-codepoint string
"✅" compared by exact string equality: a reaction with any other symbol —
including the emoji-presentation variant with U+FE0F appended — is ignored
by the Approval Handler. -/
theorem approval_symbol_exact_equality (cfg : Config) (client : Client) :
    approvalEmoji = "✅" ∧
    approvalEmoji.data.length = 1 ∧
    (∀ (event : SyncMessageEvent ReactionEventContent) (room : Room),
      event.content.relates_to.emoji ≠ approvalEmoji →
      on_room_react cfg client event room = (Except.ok (), [])) := by
  refine ⟨rfl, by decide, ?_⟩
  intro event room hne
  exact on_room_react_ignored cfg client event room (fun hc => hne hc.1)

/-- Witness for C8: the U+FE0F emoji-presentation variant of the check
mark is not recognized and the handler does nothing. -/
theorem approval_symbol_exact_equality_witness :
    on_room_react wCfg wClient wVariantReact wRoomMod = (Except.ok (), []) :=
  (approval_symbol_exact_equality wCfg wClient).2.2 wVariantReact wRoomMod
    (by decide)

/-- Claim C9: validating a raw configuration fails with a Config error
naming the offending field whenever a channel reference does not resolve
to a valid `RoomId`: an unresolvable `input_room_id` fails naming it, an
unresolvable `mod_room_id` (with `input_room_id` resolvable) fails naming
it, and an unresolvable `output_room_id` (with the other two resolvable)
fails naming it — so no validated `Config` is produced and the process
cannot start. -/
theorem config_invalid_room_reference_fails
    (roomIdTryFrom : String → Option RoomId) (c : RawConfig) :
    (roomIdTryFrom c.input_room_id = none →
      Config.try_from roomIdTryFrom c =
        Except.error (FourwarderError.Config input_room_id_invalid)) ∧
    (∀ i : RoomId, roomIdTryFrom c.input_room_id = some i →
      roomIdTryFrom c.mod_room_id = none →
      Config.try_from roomIdTryFrom c =
        Except.error (FourwarderError.Config mod_room_id_invalid)) ∧
    (∀ i m : RoomId, roomIdTryFrom c.input_room_id = some i →
      roomIdTryFrom c.mod_room_id = some m →
      roomIdTryFrom c.output_room_id = none →
      Config.try_from roomIdTryFrom c =
        Except.error (FourwarderError.Config output_room_id_invalid)) := by
  refine ⟨?_, ?_, ?_⟩
  · intro hi
    simp only [Config.try_from, hi]
  · intro i hi hm
    simp only [Config.try_from, hi, hm]
  · intro i m hi hm ho
    simp only [Config.try_from, hi, hm, ho]

/-- Witness for C9: a resolver rejecting every reference fails on the
first field, `input_room_id`. -/
theorem config_invalid_room_reference_fails_witness :
    Config.try_from wRejectAll wRawConfig =
      Except.error (FourwarderError.Config input_room_id_invalid) :=
  (config_invalid_room_reference_fails wRejectAll wRawConfig).1 rfl

/-- Claim C10: if the room a message event arrives in is not in the Joined
state, the message handler returns success with no side effect — even for
a plain-text message in the Input channel, as the witness shows — so
relaying presupposes joined membership of the Input channel. -/
theorem message_in_unjoined_room_ignored (cfg : Config) (client : Client)
    (event : SyncMessageEvent MessageEventContent) (room : Room)
    (h : room.isJoined = false) :
    on_room_message cfg client event room = (Except.ok (), []) := by
  cases room with
  | Joined rid => simp [Room.isJoined] at h
  | Invited rid => simp only [on_room_message]
  | Left rid => simp only [on_room_message]

/-- Witness for C10: a plain-text message in the Input channel while the
bot is merely invited produces no relay. -/
theorem message_in_unjoined_room_ignored_witness :
    on_room_message wCfg wClient wTextEvent (Room.Invited wCfg.input_room_id) =
      (Except.ok (), []) :=
  message_in_unjoined_room_ignored wCfg wClient wTextEvent
    (Room.Invited wCfg.input_room_id) rfl

end Fourwarder
